import Mathlib

/-!
Verification of the player-process orchestration layer of the
Multi-SendSpin-Player-Container repository.

The embedding translates the Python sources:
  - src/app/managers/process_manager.py  (ProcessManager)
  - src/app/app.py                       (PlayerManager)
Python dicts are modelled as association lists with in-place update
semantics (assigning an existing key replaces the entry in place, a new
key is appended).  OS effects (spawning a subprocess, signalling a
process group) are modelled by explicit oracles passed to the
operations: a spawn oracle says what happens to a spawned command and a
stop outcome says how a live process reacts to the TERM/KILL escalation.
The configuration store and the providers live outside src/; they are
modelled from the spec (section 6 and section 4.1) where noted.
-/

namespace MultiSpin

/-- Values stored in a player configuration dict (strings, ints, bools). -/
inductive Val where
  | str (s : String)
  | int (n : Int)
  | bool (b : Bool)
deriving DecidableEq, Repr

/-- A Python dict with string keys, as an association list. -/
abbrev Dict := List (String × Val)

/-- Lookup of a key in an association list (Python d.get(k)). -/
def alistLookup {α : Type} (l : List (String × α)) (k : String) : Option α :=
  (l.find? (fun e => e.1 == k)).map (·.2)

/-- Key membership in an association list (Python k in d). -/
def alistHasKey {α : Type} (l : List (String × α)) (k : String) : Bool :=
  (l.find? (fun e => e.1 == k)).isSome

/-- Assignment d[k] = v with Python dict semantics: an existing key is
replaced in place, a new key is appended at the end. -/
def alistSet {α : Type} : List (String × α) → String → α → List (String × α)
  | [], k, v => [(k, v)]
  | e :: t, k, v => if e.1 == k then (k, v) :: t else e :: alistSet t k v

/-- Deletion del d[k]. -/
def alistErase {α : Type} (l : List (String × α)) (k : String) :
    List (String × α) :=
  l.filter (fun e => e.1 != k)

/-- Python d.update(extra) and dict-literal double-star merge: entries of
extra are assigned left to right, overriding existing keys. -/
def alistMerge {α : Type} (l extra : List (String × α)) : List (String × α) :=
  extra.foldl (fun acc e => alistSet acc e.1 e.2) l

/-! Lemmas about the association-list operations. -/

theorem alistLookup_set_self {α : Type} (l : List (String × α)) (k : String) (v : α) :
    alistLookup (alistSet l k v) k = some v := by
  induction l with
  | nil => simp [alistSet, alistLookup, List.find?]
  | cons e t ih =>
    by_cases he : e.1 = k
    · simp [alistSet, he, alistLookup, List.find?]
    · have he' : (e.1 == k) = false := beq_eq_false_iff_ne.mpr he
      simpa [alistSet, he', alistLookup, List.find?] using ih

theorem alistLookup_set_ne {α : Type} (l : List (String × α)) (k k' : String) (v : α)
    (h : (k' == k) = false) :
    alistLookup (alistSet l k' v) k = alistLookup l k := by
  have hkk : ¬k' = k := by simpa using h
  induction l with
  | nil => simp [alistSet, alistLookup, List.find?, h]
  | cons e t ih =>
    by_cases he : e.1 = k'
    · have he' : (e.1 == k') = true := beq_iff_eq.mpr he
      have hek : (e.1 == k) = false := by
        subst he
        exact h
      simp [alistSet, he', alistLookup, List.find?, hek, h]
    · have he' : (e.1 == k') = false := beq_eq_false_iff_ne.mpr he
      by_cases hek : e.1 = k
      · have hek' : (e.1 == k) = true := beq_iff_eq.mpr hek
        simp [alistSet, he', alistLookup, List.find?, hek']
      · have hek' : (e.1 == k) = false := beq_eq_false_iff_ne.mpr hek
        simpa [alistSet, he', alistLookup, List.find?, hek'] using ih

theorem alistLookup_erase_self {α : Type} (l : List (String × α)) (k : String) :
    alistLookup (alistErase l k) k = none := by
  induction l with
  | nil => simp [alistErase, alistLookup, List.find?]
  | cons e t ih =>
    by_cases he : e.1 = k
    · have he' : (e.1 == k) = true := beq_iff_eq.mpr he
      simp [alistErase, List.filter_cons, bne, he'] at *
      exact ih
    · have he' : (e.1 == k) = false := beq_eq_false_iff_ne.mpr he
      have step : alistErase (e :: t) k = e :: alistErase t k := by
        simp [alistErase, List.filter_cons, bne, he']
      rw [step]
      show (List.find? (fun e => e.1 == k) (e :: alistErase t k)).map (·.2) = none
      rw [List.find?_cons_of_neg _ (by simp [he'])]
      exact ih

theorem alistLookup_merge_of_not_key {α : Type} (l extra : List (String × α)) (k : String)
    (h : alistHasKey extra k = false) :
    alistLookup (alistMerge l extra) k = alistLookup l k := by
  induction extra generalizing l with
  | nil => simp [alistMerge]
  | cons e t ih =>
    unfold alistHasKey at h
    by_cases he : e.1 = k
    · have he' : (e.1 == k) = true := beq_iff_eq.mpr he
      simp [List.find?, he'] at h
    · have he' : (e.1 == k) = false := beq_eq_false_iff_ne.mpr he
      have hk : alistHasKey t k = false := by
        unfold alistHasKey
        simpa [List.find?, he'] using h
      have step : alistMerge l (e :: t) = alistMerge (alistSet l e.1 e.2) t := rfl
      rw [step, ih _ hk, alistLookup_set_ne _ _ _ _ he']

/-!
Embedding of src/app/managers/process_manager.py.

A tracked subprocess (Popen) is a pid together with whether a poll call
during the current operation observes it as terminated.  Spawning a
command is an OS effect; it is modelled by a spawn oracle mapping the
command line to what happened: FileNotFoundError, another exception, or
a spawned process together with whether it exited during the fixed
startup grace period (process.poll() after the 0.5 s sleep) and its
captured stderr.  Stopping a live process is modelled by a stop outcome:
it exited within the SIGTERM timeout, it had to be SIGKILLed, or the
group signalling itself raised.
-/

/-- A tracked subprocess: its pid and whether poll observes it exited. -/
structure Proc where
  pid : Nat
  exited : Bool
deriving DecidableEq, Repr

/-- Result of the subprocess.Popen call plus the startup grace period in
ProcessManager.start: FileNotFoundError, some other exception, or a
process that either survived the grace period or exited during it with
the given captured stderr. -/
inductive SpawnOutcome where
  | notFound
  | err (msg : String)
  | spawned (pid : Nat) (diesImmediately : Bool) (stderr : String)

/-- Behaviour of a live process under the SIGTERM-then-SIGKILL
escalation in ProcessManager.stop: it terminates within the graceful
timeout, it has to be force killed (the inner wait result is ignored by
the source), or the group signalling raises an exception. -/
inductive StopOutcome where
  | gracefulExit
  | forcedKill
  | signalError (msg : String)

/-- State of the ProcessManager: the live process map and the log
directory (process_manager.py, constructor). -/
structure ProcessManager where
  processes : List (String × Proc)
  log_dir : String
deriving DecidableEq, Repr

/-- The stderr text used in failure messages: stderr.decode() if stderr
else the Unknown-error placeholder (process_manager.py line 136). -/
def spawnErrMsg (stderr : String) : String :=
  if stderr == "" then "Unknown error" else stderr

/-- Text of a FileNotFoundError as interpolated by the generic except
handler of the fallback path; the exact wording is OS-dependent and
irrelevant to every claim. -/
def fnfText (command : List String) : String :=
  "No such file or directory: " ++ command.headD "unknown"

namespace ProcessManager

/-- ProcessManager.is_running (process_manager.py lines 242-256): false
when the name is untracked, otherwise whether poll observes it alive. -/
def is_running (pm : ProcessManager) (name : String) : Bool :=
  match alistLookup pm.processes name with
  | none => false
  | some p => !p.exited

/-- ProcessManager.get_all_statuses (lines 258-271). -/
def get_all_statuses (pm : ProcessManager) (player_names : List String) :
    List (String × Bool) :=
  player_names.map (fun n => (n, pm.is_running n))

/-- ProcessManager.get_log_path (lines 318-328). -/
def get_log_path (pm : ProcessManager) (name : String) : String :=
  pm.log_dir ++ "/" ++ name ++ ".log"

/-- ProcessManager._start_fallback (lines 157-191): spawn the fallback
command, register it, and fail if it also exits during the grace
period.  Exceptions are caught by a generic handler. -/
def start_fallback (pm : ProcessManager) (name : String) (command : List String)
    (spawn : List String → SpawnOutcome) : ProcessManager × Bool × String :=
  match spawn command with
  | .notFound =>
      (pm, false, "Error starting fallback: " ++ fnfText command)
  | .err m =>
      (pm, false, "Error starting fallback: " ++ m)
  | .spawned pid dies stderr =>
      let pm2 : ProcessManager :=
        { pm with processes := alistSet pm.processes name ⟨pid, dies⟩ }
      if dies then
        (pm2, false, "Fallback also failed: " ++ spawnErrMsg stderr)
      else
        (pm2, true, "Process \x27" ++ name ++ "\x27 started with fallback configuration")

/-- ProcessManager.start (lines 86-155).  Fails fast when a tracked
process for the name polls alive; otherwise spawns the command in a new
process group, registers it, and checks after the startup grace period
whether it exited immediately, retrying with the fallback command when
one is supplied. -/
def start (pm : ProcessManager) (name : String) (command : List String)
    (fallback_command : Option (List String)) (spawn : List String → SpawnOutcome) :
    ProcessManager × Bool × String :=
  if pm.is_running name then
    (pm, false, "Process \x27" ++ name ++ "\x27 is already running")
  else
    match spawn command with
    | .notFound =>
        (pm, false, "Binary \x27" ++ command.headD "unknown" ++ "\x27 not found")
    | .err m =>
        (pm, false, "Error starting process: " ++ m)
    | .spawned pid dies stderr =>
        let pm2 : ProcessManager :=
          { pm with processes := alistSet pm.processes name ⟨pid, dies⟩ }
        if dies then
          match fallback_command with
          | some fc =>
              if fc.isEmpty then
                (pm2, false, "Process failed to start: " ++ spawnErrMsg stderr)
              else
                pm2.start_fallback name fc spawn
          | none => (pm2, false, "Process failed to start: " ++ spawnErrMsg stderr)
        else
          (pm2, true, "Process \x27" ++ name ++ "\x27 started successfully")

/-- ProcessManager.stop (lines 193-240).  Not-found when untracked; an
entry whose process already exited is reaped and reported as not
running; otherwise the process group is signalled with the
graceful-then-forced escalation.  When the group signalling itself
raises, the source returns the error without removing the entry. -/
def stop (pm : ProcessManager) (name : String) (outcome : StopOutcome) :
    ProcessManager × Bool × String :=
  match alistLookup pm.processes name with
  | none => (pm, false, "Process \x27" ++ name ++ "\x27 not found")
  | some p =>
      if p.exited then
        ({ pm with processes := alistErase pm.processes name }, false,
          "Process \x27" ++ name ++ "\x27 was not running")
      else
        match outcome with
        | .gracefulExit =>
            ({ pm with processes := alistErase pm.processes name }, true,
              "Process \x27" ++ name ++ "\x27 stopped successfully")
        | .forcedKill =>
            ({ pm with processes := alistErase pm.processes name }, true,
              "Process \x27" ++ name ++ "\x27 force stopped")
        | .signalError m =>
            (pm, false, "Error stopping process: " ++ m)

/-- ProcessManager.cleanup_dead_processes (lines 287-302): removes every
tracked process that polls terminated and returns their names. -/
def cleanup_dead_processes (pm : ProcessManager) : ProcessManager × List String :=
  ({ pm with processes := pm.processes.filter (fun e => !e.2.exited) },
    (pm.processes.filter (fun e => e.2.exited)).map (·.1))

end ProcessManager

/-!
Embedding of the collaborators of PlayerManager that live outside src/:
the configuration store (spec section 6) and the provider abstraction
(spec section 4.1 and 4.2).  A provider is passed as a record of the
duck-typed methods app.py calls on it; claims quantify over it.
-/

/-- Modelled from the spec: the external configuration store (section 6)
keeps one record per player name; getPlayer returns the stored record
(so an in-place field assignment on it, as app.py performs, mutates the
stored record), and save makes the in-memory records durable.  The
saved component is the persisted file contents. -/
structure ConfigManager where
  players : List (String × Dict)
  saved : List (String × Dict)
deriving DecidableEq, Repr

namespace ConfigManager

/-- Modelled from the spec: playerExists(name) of the store contract. -/
def player_exists (c : ConfigManager) (name : String) : Bool :=
  alistHasKey c.players name

/-- Modelled from the spec: getPlayer(name) of the store contract. -/
def get_player (c : ConfigManager) (name : String) : Option Dict :=
  alistLookup c.players name

/-- Modelled from the spec: setPlayer(name, config) of the store contract. -/
def set_player (c : ConfigManager) (name : String) (config : Dict) : ConfigManager :=
  { c with players := alistSet c.players name config }

/-- Modelled from the spec: deletePlayer(name) of the store contract. -/
def delete_player (c : ConfigManager) (name : String) : ConfigManager :=
  { c with players := alistErase c.players name }

/-- Modelled from the spec: save() persists the in-memory records. -/
def save (c : ConfigManager) : ConfigManager :=
  { c with saved := c.players }

/-- Modelled from the spec: listPlayers() of the store contract. -/
def list_players (c : ConfigManager) : List String :=
  c.players.map (·.1)

/-- An in-place field assignment on the record returned by getPlayer,
as app.py performs with player[field] = value followed by save: the
stored record itself is updated. -/
def mutate_player_field (c : ConfigManager) (name field : String) (v : Val) :
    ConfigManager :=
  match alistLookup c.players name with
  | some d => { c with players := alistSet c.players name (alistSet d field v) }
  | none => c

end ConfigManager

/-- Modelled from the spec (section 4.1): the duck-typed provider
interface app.py calls.  validateConfig is side-effect free;
prepareConfig fills derivable fields; buildCommand is a pure data
transform; setVolume delegates the hardware set to the device/volume
collaborator and returns its (ok, message) without touching the
configuration store; getVolume returns a percentage. -/
structure Provider where
  validate_config : Dict → Bool × String
  prepare_config : Dict → Dict
  build_command : Dict → String → List String
  supports_fallback : Bool
  build_fallback_command : Dict → String → List String
  set_volume : Dict → Int → Bool × String
  get_volume : Dict → Int
  display_name : String

/-- Modelled from the spec (section 4.2): the provider registry is a
name-keyed catalog resolving a provider by type name. -/
structure ProviderRegistry where
  get : String → Option Provider

/-- Modelled from the spec (section 4.2): getForPlayer resolves using
the stored provider field, defaulting to squeezelite when the field is
missing (app.py line 420 uses the same default); a stored value that is
not a string cannot match a registered type name. -/
def ProviderRegistry.get_for_player (reg : ProviderRegistry) (player : Dict) :
    Option Provider :=
  match alistLookup player "provider" with
  | some (Val.str s) => reg.get s
  | some _ => none
  | none => reg.get "squeezelite"

/-- Rendering of a stored value the way a Python f-string would. -/
def pythonStr (v : Val) : String :=
  match v with
  | .str s => s
  | .int n => toString n
  | .bool b => if b then "True" else "False"

/-- The provider type named in the unknown-provider message of
startPlayer: player.get(provider-key, squeezelite) (app.py line 420). -/
def providerFieldStr (player : Dict) : String :=
  match alistLookup player "provider" with
  | some v => pythonStr v
  | none => "squeezelite"

/-- Combined state of the two stateful collaborators reached from
PlayerManager operations: the configuration store and the process
manager. -/
structure PMState where
  cfg : ConfigManager
  proc : ProcessManager
deriving DecidableEq, Repr

/-- Python truthiness of an optional command list: None and the empty
list are falsy. -/
def fallbackTruthy : Option (List String) → Bool
  | some fc => !fc.isEmpty
  | none => false

/-- Python substring containment: sub in s. -/
def strContainsSub (s sub : String) : Bool :=
  decide (sub.data <:+: s.data)

/-- The device named in the fallback message of startPlayer:
player.get(device-key) rendered by an f-string, None when absent. -/
def deviceStr (player : Dict) : String :=
  match alistLookup player "device" with
  | some v => pythonStr v
  | none => "None"

/-!
Embedding of the PlayerManager operations of src/app/app.py.  The
provider registry is passed explicitly; process-spawning and
process-stopping effects are the same oracles used by the
ProcessManager embedding.
-/

namespace PlayerManager

/-- The dict literal built by PlayerManager.create_player (app.py lines
267-277): fixed defaults with the double-starred extra configuration
merged last, so extra entries override the defaults. -/
def create_base_config (name device provider_type server_ip server_url
    mac_address : String) (extra_config : Dict) : Dict :=
  alistMerge
    [("name", Val.str name), ("device", Val.str device),
     ("provider", Val.str provider_type), ("server_ip", Val.str server_ip),
     ("server_url", Val.str server_url), ("mac_address", Val.str mac_address),
     ("enabled", Val.bool true), ("volume", Val.int 75)]
    extra_config

/-- PlayerManager.create_player (app.py lines 233-289). -/
def create_player (reg : ProviderRegistry) (cfg : ConfigManager)
    (name device provider_type server_ip server_url mac_address : String)
    (extra_config : Dict) : ConfigManager × Bool × String :=
  if cfg.player_exists name then
    (cfg, false, "Player with this name already exists")
  else
    match reg.get provider_type with
    | none => (cfg, false, "Unknown provider type: " ++ provider_type)
    | some provider =>
        let player_config :=
          create_base_config name device provider_type server_ip server_url
            mac_address extra_config
        let vres := provider.validate_config player_config
        if !vres.1 then
          (cfg, false, vres.2)
        else
          let player_config := provider.prepare_config player_config
          ((cfg.set_player name player_config).save, true,
            "Player created successfully")

/-- PlayerManager.get_player_status (app.py lines 455-465). -/
def get_player_status (st : PMState) (name : String) : Bool :=
  st.proc.is_running name

/-- PlayerManager.stop_player (app.py lines 443-453). -/
def stop_player (st : PMState) (name : String) (outcome : StopOutcome) :
    PMState × Bool × String :=
  let r := st.proc.stop name outcome
  ({ st with proc := r.1 }, r.2.1, r.2.2)

/-- PlayerManager.start_player (app.py lines 397-441). -/
def start_player (reg : ProviderRegistry) (st : PMState) (name : String)
    (spawn : List String → SpawnOutcome) : PMState × Bool × String :=
  match st.cfg.get_player name with
  | none => (st, false, "Player not found")
  | some player =>
      if player.isEmpty then (st, false, "Player not found")
      else if st.proc.is_running name then (st, false, "Player already running")
      else
        match reg.get_for_player player with
        | none => (st, false, "Unknown provider type: " ++ providerFieldStr player)
        | some provider =>
            let log_path := st.proc.get_log_path name
            let cmd := provider.build_command player log_path
            let fallback_cmd : Option (List String) :=
              if provider.supports_fallback then
                some (provider.build_fallback_command player log_path)
              else none
            let r := st.proc.start name cmd fallback_cmd spawn
            let st2 : PMState := { st with proc := r.1 }
            if r.2.1 && fallbackTruthy fallback_cmd
                && strContainsSub r.2.2.toLower "fallback" then
              (st2, true, "Player " ++ name ++ " started with fallback (audio device \x27"
                ++ deviceStr player ++ "\x27 not available)")
            else
              (st2, r.2.1, r.2.2)

/-- The configuration assembled by PlayerManager.update_player before
validation (app.py lines 330-346): a copy of the stored record with
name, device, server_ip and server_url overwritten, mac_address and
provider overwritten only when truthy, then the extra configuration
merged last. -/
def updated_config (cfg1 : ConfigManager) (old_name new_name device : String)
    (provider_type : Option String) (server_ip server_url mac_address : String)
    (extra_config : Dict) : Dict :=
  let pc := (cfg1.get_player old_name).getD []
  let pc := alistSet pc "name" (Val.str new_name)
  let pc := alistSet pc "device" (Val.str device)
  let pc := alistSet pc "server_ip" (Val.str server_ip)
  let pc := alistSet pc "server_url" (Val.str server_url)
  let pc := if mac_address != "" then alistSet pc "mac_address" (Val.str mac_address) else pc
  let pc :=
    match provider_type with
    | some pt => if pt != "" then alistSet pc "provider" (Val.str pt) else pc
    | none => pc
  alistMerge pc extra_config

/-- The configuration persisted by update_player: the assembled
configuration, run through the provider prepare step when a provider
resolves (app.py lines 349-354). -/
def prepared_update (reg : ProviderRegistry) (pc : Dict) : Dict :=
  match reg.get_for_player pc with
  | some provider => provider.prepare_config pc
  | none => pc

/-- State of the two collaborators after update_player has stopped the
running player, persisted the updated configuration and saved, just
before the restart attempt (app.py up to line 362, was_running case). -/
def update_mid_state (reg : ProviderRegistry) (st : PMState)
    (old_name new_name : String) (pc : Dict) (stopOutcome : StopOutcome) : PMState :=
  { cfg := ((if old_name != new_name then st.cfg.delete_player old_name
              else st.cfg).set_player new_name (prepared_update reg pc)).save,
    proc := (st.proc.stop old_name stopOutcome).1 }

/-- PlayerManager.update_player (app.py lines 291-372). -/
def update_player (reg : ProviderRegistry) (st : PMState)
    (old_name new_name device : String) (provider_type : Option String)
    (server_ip server_url mac_address : String) (extra_config : Dict)
    (stopOutcome : StopOutcome) (spawn : List String → SpawnOutcome) :
    PMState × Bool × String :=
  if !(st.cfg.player_exists old_name) then (st, false, "Player not found")
  else if old_name != new_name && st.cfg.player_exists new_name then
    (st, false, "Player with this name already exists")
  else
    let was_running := get_player_status st old_name
    let st1 := if was_running then (stop_player st old_name stopOutcome).1 else st
    let pc := updated_config st1.cfg old_name new_name device provider_type
      server_ip server_url mac_address extra_config
    let vres : Bool × String :=
      match reg.get_for_player pc with
      | some provider => provider.validate_config pc
      | none => (true, "")
    if !vres.1 then (st1, false, vres.2)
    else
      let pc2 := prepared_update reg pc
      let cfg2 := if old_name != new_name then st1.cfg.delete_player old_name else st1.cfg
      let st2 : PMState := { st1 with cfg := (cfg2.set_player new_name pc2).save }
      if was_running then
        let r := start_player reg st2 new_name spawn
        if r.2.1 then (r.1, true, "Player updated and restarted successfully")
        else (r.1, true, "Player updated successfully, but failed to restart: " ++ r.2.2)
      else (st2, true, "Player updated successfully")

/-- PlayerManager.get_player_volume (app.py lines 515-545). -/
def get_player_volume (reg : ProviderRegistry) (cfg : ConfigManager) (name : String) :
    ConfigManager × Option Val :=
  match cfg.get_player name with
  | none => (cfg, none)
  | some player =>
      if player.isEmpty then (cfg, none)
      else
        match reg.get_for_player player with
        | none => (cfg, some ((alistLookup player "volume").getD (Val.int 75)))
        | some provider =>
            let actual_volume := provider.get_volume player
            if !(alistHasKey player "volume") then
              ((cfg.mutate_player_field name "volume" (Val.int actual_volume)).save,
                some (Val.int actual_volume))
            else
              (cfg, some (Val.int actual_volume))

/-- PlayerManager.set_player_volume (app.py lines 547-582). -/
def set_player_volume (reg : ProviderRegistry) (cfg : ConfigManager) (name : String)
    (volume : Int) : ConfigManager × Bool × String :=
  match cfg.get_player name with
  | none => (cfg, false, "Player not found")
  | some player =>
      if player.isEmpty then (cfg, false, "Player not found")
      else if ¬(0 ≤ volume ∧ volume ≤ 100) then
        (cfg, false, "Volume must be between 0 and 100")
      else
        match reg.get_for_player player with
        | none =>
            ((cfg.mutate_player_field name "volume" (Val.int volume)).save, true,
              "Volume set to " ++ toString volume ++ "% (provider not available)")
        | some provider =>
            let r := provider.set_volume player volume
            ((cfg.mutate_player_field name "volume" (Val.int volume)).save, r.1, r.2)

end PlayerManager

/-!
Helper lemmas and concrete instances used by the claim theorems.
-/

/-- Two strings cannot be equal when some character-valued observation
of their underlying character lists differs. -/
theorem string_discr_absurd (f : List Char → Option Char) (s t : String) (c₁ c₂ : Char)
    (he : s = t) (h₁ : f s.data = some c₁) (h₂ : f t.data = some c₂) (hc : c₁ ≠ c₂) :
    False := by
  apply hc
  have h3 : f s.data = f t.data := by rw [he]
  rw [h₁, h₂] at h3
  exact Option.some.inj h3

/-- Key membership agrees with lookup success. -/
theorem alistHasKey_eq_isSome {α : Type} (l : List (String × α)) (k : String) :
    alistHasKey l k = (alistLookup l k).isSome := by
  unfold alistHasKey alistLookup
  cases l.find? (fun e => e.1 == k) <;> rfl

/-- A ProcessManager with no tracked processes. -/
def pmEmpty : ProcessManager := { processes := [], log_dir := "/app/logs" }

/-- A ProcessManager tracking one process that poll observes exited. -/
def pmDead : ProcessManager := { processes := [("kitchen", ⟨7, true⟩)], log_dir := "/app/logs" }

/-- Spawn oracle: the process starts and exits during the grace period. -/
def spawnDiesBoom : List String → SpawnOutcome := fun _ => SpawnOutcome.spawned 7 true "boom"

/-- Spawn oracle: the process starts and survives the grace period. -/
def spawnAlive5 : List String → SpawnOutcome := fun _ => SpawnOutcome.spawned 5 false ""

/-- Spawn oracle: the binary is missing (FileNotFoundError). -/
def spawnNotFound : List String → SpawnOutcome := fun _ => SpawnOutcome.notFound

/-- Claim C3, counterexample.  After start spawns a command that exits
during the startup grace period (and no fallback is supplied), the
operation has confirmed the tracked process terminated - it reports the
failure - yet the live map still holds the dead entry for the name. -/
theorem start_retains_confirmed_dead_entry :
    ProcessManager.start pmEmpty "kitchen" ["squeezelite"] none spawnDiesBoom
      = ({ processes := [("kitchen", ⟨7, true⟩)], log_dir := "/app/logs" }, false,
          "Process failed to start: boom")
    ∧ alistLookup (ProcessManager.start pmEmpty "kitchen" ["squeezelite"] none
        spawnDiesBoom).1.processes "kitchen" = some ⟨7, true⟩ := by
  exact ⟨rfl, rfl⟩

/-- Claim C3, amended.  The removal guarantee holds for stop and for
cleanup_dead_processes: stop reaps an entry it observes already exited
before returning, and after cleanup_dead_processes every retained entry
polls alive, the reaped names being exactly those whose process had
exited.  It does not hold for start, which can return with a
confirmed-dead entry still tracked. -/
theorem stop_and_cleanup_reap_dead_entries :
    (∀ (pm : ProcessManager) (name : String) (outcome : StopOutcome) (p : Proc),
        alistLookup pm.processes name = some p → p.exited = true →
        alistLookup ((pm.stop name outcome).1).processes name = none)
    ∧ (∀ (pm : ProcessManager) (e : String × Proc),
        e ∈ (pm.cleanup_dead_processes).1.processes → e.2.exited = false)
    ∧ (∀ pm : ProcessManager, (pm.cleanup_dead_processes).2
        = (pm.processes.filter (fun e => e.2.exited)).map (·.1)) := by
  refine ⟨?_, ?_, ?_⟩
  · intro pm name outcome p hp hex
    unfold ProcessManager.stop
    rw [hp]
    simp only [hex, if_pos]
    exact alistLookup_erase_self pm.processes name
  · intro pm e he
    unfold ProcessManager.cleanup_dead_processes at he
    simp only [List.mem_filter] at he
    simpa using he.2
  · intro pm
    rfl

/-- Claim C3, amended, witness at a concrete dead entry. -/
theorem stop_and_cleanup_reap_dead_entries_witness :
    alistLookup ((pmDead.stop "kitchen" StopOutcome.gracefulExit).1).processes "kitchen"
      = none :=
  stop_and_cleanup_reap_dead_entries.1 pmDead "kitchen" StopOutcome.gracefulExit
    ⟨7, true⟩ rfl rfl

/-- Claim C7.  start fails with the already-running outcome exactly when
the live map holds an entry for the name whose process polls alive; and
when it does not - in particular when the tracked entry has already
exited - start proceeds to spawn the command, registering the new
process on a survived grace period. -/
theorem start_already_running_iff_live_entry (pm : ProcessManager) (name : String)
    (command : List String) (fallback_command : Option (List String))
    (spawn : List String → SpawnOutcome) :
    ((pm.start name command fallback_command spawn).2
        = (false, "Process \x27" ++ name ++ "\x27 is already running")
      ↔ pm.is_running name = true)
    ∧ (pm.is_running name = false →
        ∀ (pid : Nat) (stderr : String),
          spawn command = SpawnOutcome.spawned pid false stderr →
          pm.start name command fallback_command spawn
            = ({ pm with processes := alistSet pm.processes name ⟨pid, false⟩ }, true,
                "Process \x27" ++ name ++ "\x27 started successfully")) := by
  constructor
  · constructor
    · intro h
      by_cases hr : pm.is_running name = true
      · exact hr
      · exfalso
        rw [Bool.not_eq_true] at hr
        unfold ProcessManager.start at h
        rw [hr] at h
        simp only [Bool.false_eq_true, if_false] at h
        cases hs : spawn command with
        | notFound =>
          rw [hs] at h
          simp only [Prod.mk.injEq, true_and] at h
          exact string_discr_absurd List.head? _ _ 'B' 'P' h rfl rfl (by decide)
        | err m =>
          rw [hs] at h
          simp only [Prod.mk.injEq, true_and] at h
          exact string_discr_absurd List.head? _ _ 'E' 'P' h rfl rfl (by decide)
        | spawned pid dies stderr =>
          rw [hs] at h
          cases dies with
          | false => simp at h
          | true =>
            simp only [reduceIte] at h
            cases fallback_command with
            | none =>
              simp only [Prod.mk.injEq, true_and] at h
              exact string_discr_absurd (fun l => (l.drop 8).head?) _ _ 'f' '\x27' h
                rfl rfl (by decide)
            | some fc =>
              by_cases hfc : fc.isEmpty
              · simp only [hfc, if_pos, Prod.mk.injEq, true_and] at h
                exact string_discr_absurd (fun l => (l.drop 8).head?) _ _ 'f' '\x27' h
                  rfl rfl (by decide)
              · rw [Bool.not_eq_true] at hfc
                simp only [hfc, Bool.false_eq_true, if_false] at h
                unfold ProcessManager.start_fallback at h
                cases hs2 : spawn fc with
                | notFound =>
                  rw [hs2] at h
                  simp only [Prod.mk.injEq, true_and] at h
                  exact string_discr_absurd List.head? _ _ 'E' 'P' h rfl rfl (by decide)
                | err m =>
                  rw [hs2] at h
                  simp only [Prod.mk.injEq, true_and] at h
                  exact string_discr_absurd List.head? _ _ 'E' 'P' h rfl rfl (by decide)
                | spawned pid2 dies2 stderr2 =>
                  rw [hs2] at h
                  cases dies2 with
                  | false => simp at h
                  | true =>
                    simp only [reduceIte, Prod.mk.injEq, true_and] at h
                    exact string_discr_absurd List.head? _ _ 'F' 'P' h rfl rfl (by decide)
    · intro hr
      unfold ProcessManager.start
      simp [hr]
  · intro hr pid stderr hs
    unfold ProcessManager.start
    rw [hr]
    simp only [Bool.false_eq_true, if_false, hs]

/-- Claim C7, witness: with no live entry and a surviving spawn, start
registers the process and reports success. -/
theorem start_already_running_iff_live_entry_witness :
    ProcessManager.start pmEmpty "kitchen" ["squeezelite"] none spawnAlive5
      = ({ processes := [("kitchen", ⟨5, false⟩)], log_dir := "/app/logs" }, true,
          "Process \x27kitchen\x27 started successfully") :=
  (start_already_running_iff_live_entry pmEmpty "kitchen" ["squeezelite"] none
    spawnAlive5).2 rfl 5 "" rfl

/-- Claim C8.  stop on a non-running player performs no process work:
an untracked name yields the not-found failure with the map unchanged,
and a tracked entry whose process already exited is reaped and reported
as not running, in both cases independently of the stop escalation
behaviour. -/
theorem stop_non_running_no_process (pm : ProcessManager) (name : String)
    (outcome : StopOutcome) :
    (alistLookup pm.processes name = none →
      pm.stop name outcome = (pm, false, "Process \x27" ++ name ++ "\x27 not found"))
    ∧ (∀ p : Proc, alistLookup pm.processes name = some p → p.exited = true →
      pm.stop name outcome
        = ({ pm with processes := alistErase pm.processes name }, false,
            "Process \x27" ++ name ++ "\x27 was not running")) := by
  constructor
  · intro h
    unfold ProcessManager.stop
    rw [h]
  · intro p hp hex
    unfold ProcessManager.stop
    rw [hp]
    simp only [hex, if_pos]

/-- Claim C8, witness at a concrete dead entry. -/
theorem stop_non_running_no_process_witness :
    pmDead.stop "kitchen" StopOutcome.forcedKill
      = ({ processes := [], log_dir := "/app/logs" }, false,
          "Process \x27kitchen\x27 was not running") :=
  (stop_non_running_no_process pmDead "kitchen" StopOutcome.forcedKill).2
    ⟨7, true⟩ rfl rfl

/-- The volume field of the persisted (saved) record of a player. -/
def persistedVolume (cfg : ConfigManager) (name : String) : Option Val :=
  (alistLookup cfg.saved name).bind (fun d => alistLookup d "volume")

/-- After the in-place volume assignment followed by save that
set_player_volume performs, the persisted record of the player carries
the assigned value. -/
theorem persistedVolume_mutate_save (cfg : ConfigManager) (name : String) (v : Val)
    (player : Dict) (hp : cfg.get_player name = some player) :
    persistedVolume ((cfg.mutate_player_field name "volume" v).save) name = some v := by
  have hp' : alistLookup cfg.players name = some player := hp
  unfold ConfigManager.mutate_player_field
  simp only [hp']
  unfold persistedVolume ConfigManager.save
  simp only [alistLookup_set_self, Option.bind]

/-- Modelled from the spec: a provider validateConfig following section
4.1, rejecting configurations containing an out-of-range volume and
accepting otherwise. -/
def specValidateConfig (config : Dict) : Bool × String :=
  match alistLookup config "volume" with
  | some (Val.int v) =>
      if 0 ≤ v ∧ v ≤ 100 then (true, "") else (false, "volume out of range")
  | _ => (true, "")

/-- A provider whose hardware-level volume set always fails at the
mixer; configuration validation and preparation follow the spec
contract (prepare is the identity, filling nothing). -/
def mixerFailProvider : Provider :=
  { validate_config := specValidateConfig
    prepare_config := id
    build_command := fun _ _ => ["squeezelite"]
    supports_fallback := false
    build_fallback_command := fun _ _ => []
    set_volume := fun _ _ => (false, "Mixer error")
    get_volume := fun _ => 75
    display_name := "Squeezelite" }

/-- A registry with the mixer-failing squeezelite provider registered. -/
def mixerRegistry : ProviderRegistry :=
  ⟨fun t => if t == "squeezelite" then some mixerFailProvider else none⟩

/-- A registry in which no provider type resolves. -/
def emptyRegistry : ProviderRegistry := ⟨fun _ => none⟩

/-- A stored configuration record for the player kitchen. -/
def kitchenConfig : Dict :=
  [("name", Val.str "kitchen"), ("device", Val.str "hw:0,0"),
   ("provider", Val.str "squeezelite"), ("volume", Val.int 75)]

/-- A configuration store holding only the player kitchen, saved. -/
def cfgKitchen : ConfigManager :=
  { players := [("kitchen", kitchenConfig)], saved := [("kitchen", kitchenConfig)] }

/-- Claim C1.  For a stored player and an in-range volume,
set_player_volume always leaves the persisted record with exactly that
volume, whatever the registry resolves and whatever the provider
hardware call returns. -/
theorem set_player_volume_persists_volume (reg : ProviderRegistry) (cfg : ConfigManager)
    (name : String) (player : Dict) (volume : Int)
    (hp : cfg.get_player name = some player) (hne : player ≠ [])
    (h0 : 0 ≤ volume) (h1 : volume ≤ 100) :
    persistedVolume (PlayerManager.set_player_volume reg cfg name volume).1 name
      = some (Val.int volume) := by
  have hmut := persistedVolume_mutate_save cfg name (Val.int volume) player hp
  have hie : player.isEmpty = false := by
    cases player with
    | nil => exact absurd rfl hne
    | cons a t => rfl
  have hcond : ¬¬(0 ≤ volume ∧ volume ≤ 100) := not_not_intro ⟨h0, h1⟩
  unfold PlayerManager.set_player_volume
  simp only [hp, hie, Bool.false_eq_true, if_false]
  rw [if_neg hcond]
  cases hgp : reg.get_for_player player with
  | none => exact hmut
  | some provider => exact hmut

/-- Claim C1, witness: the mixer set fails yet volume 40 is persisted. -/
theorem set_player_volume_persists_volume_witness :
    persistedVolume (PlayerManager.set_player_volume mixerRegistry cfgKitchen
      "kitchen" 40).1 "kitchen" = some (Val.int 40) :=
  set_player_volume_persists_volume mixerRegistry cfgKitchen "kitchen" kitchenConfig 40
    rfl (by decide) (by decide) (by decide)

/-- Claim C2, counterexample.  With a resolving provider whose hardware
set fails, set_player_volume returns ok = false (the provider result is
passed through verbatim), even though the volume was persisted; the
claim that it returns ok = true is false on the code. -/
theorem set_player_volume_hw_failure_not_reported_ok :
    (mixerRegistry.get_for_player kitchenConfig).isSome = true
    ∧ (mixerFailProvider.set_volume kitchenConfig 40).1 = false
    ∧ (PlayerManager.set_player_volume mixerRegistry cfgKitchen "kitchen" 40).2
        = (false, "Mixer error")
    ∧ persistedVolume (PlayerManager.set_player_volume mixerRegistry cfgKitchen
        "kitchen" 40).1 "kitchen" = some (Val.int 40) :=
  ⟨rfl, rfl, rfl, rfl⟩

/-- Claim C2, amended.  When the provider resolves and the volume is in
range, set_player_volume returns the provider setVolume result (ok and
message) verbatim - a hardware failure surfaces as ok = false - while
the persisted volume is updated regardless. -/
theorem set_player_volume_returns_provider_result (reg : ProviderRegistry)
    (cfg : ConfigManager) (name : String) (player : Dict) (provider : Provider)
    (volume : Int)
    (hp : cfg.get_player name = some player) (hne : player ≠ [])
    (h0 : 0 ≤ volume) (h1 : volume ≤ 100)
    (hprov : reg.get_for_player player = some provider) :
    (PlayerManager.set_player_volume reg cfg name volume).2
      = provider.set_volume player volume
    ∧ persistedVolume (PlayerManager.set_player_volume reg cfg name volume).1 name
        = some (Val.int volume) := by
  have hmut := persistedVolume_mutate_save cfg name (Val.int volume) player hp
  have hie : player.isEmpty = false := by
    cases player with
    | nil => exact absurd rfl hne
    | cons a t => rfl
  have hcond : ¬¬(0 ≤ volume ∧ volume ≤ 100) := not_not_intro ⟨h0, h1⟩
  unfold PlayerManager.set_player_volume
  simp only [hp, hie, Bool.false_eq_true, if_false]
  rw [if_neg hcond]
  simp only [hprov]
  exact ⟨by trivial, hmut⟩

/-- Claim C2, amended, witness at the concrete mixer failure. -/
theorem set_player_volume_returns_provider_result_witness :
    (PlayerManager.set_player_volume mixerRegistry cfgKitchen "kitchen" 40).2
      = mixerFailProvider.set_volume kitchenConfig 40
    ∧ persistedVolume (PlayerManager.set_player_volume mixerRegistry cfgKitchen
        "kitchen" 40).1 "kitchen" = some (Val.int 40) :=
  set_player_volume_returns_provider_result mixerRegistry cfgKitchen "kitchen"
    kitchenConfig mixerFailProvider 40 rfl (by decide) (by decide) (by decide) rfl

/-- Claim C9, counterexample.  For a name with no stored player and an
out-of-range volume, the failure message is the not-found one, not the
range-validation one: the player lookup runs before the range check, so
the range validation is not performed before any other work. -/
theorem set_player_volume_lookup_precedes_range_check :
    cfgKitchen.get_player "ghost" = none
    ∧ (PlayerManager.set_player_volume mixerRegistry cfgKitchen "ghost" 101).2.2
        ≠ "Volume must be between 0 and 100"
    ∧ (PlayerManager.set_player_volume mixerRegistry cfgKitchen "ghost" 101).2
        = (false, "Player not found") :=
  ⟨rfl, by decide, rfl⟩

/-- Claim C9, amended.  An out-of-range volume is always rejected with
no change to the in-memory or persisted configuration; when the player
exists (with a non-empty record) the failure is the range-validation
message, the existence lookup having run first. -/
theorem set_player_volume_out_of_range_rejected (reg : ProviderRegistry)
    (cfg : ConfigManager) (name : String) (volume : Int)
    (h : volume < 0 ∨ 100 < volume) :
    (PlayerManager.set_player_volume reg cfg name volume).1 = cfg
    ∧ (PlayerManager.set_player_volume reg cfg name volume).2.1 = false
    ∧ (∀ player : Dict, cfg.get_player name = some player → player ≠ [] →
        (PlayerManager.set_player_volume reg cfg name volume).2.2
          = "Volume must be between 0 and 100") := by
  have hcond : ¬(0 ≤ volume ∧ volume ≤ 100) := by
    rcases h with h | h
    · exact fun hc => absurd hc.1 (not_le.mpr h)
    · exact fun hc => absurd hc.2 (not_le.mpr h)
  unfold PlayerManager.set_player_volume
  cases hp : cfg.get_player name with
  | none =>
      refine ⟨rfl, rfl, fun player hpl => ?_⟩
      cases hpl
  | some player =>
      cases hie : player.isEmpty with
      | true =>
          have hnil : player = [] := List.isEmpty_iff.mp hie
          simp only [hie, if_true]
          refine ⟨by trivial, by trivial, fun p hpl hne => ?_⟩
          have hpp : p = player := (Option.some.inj hpl).symm
          exact absurd (hpp.trans hnil) hne
      | false =>
          simp only [hie, Bool.false_eq_true, if_false]
          rw [if_pos hcond]
          exact ⟨rfl, rfl, fun p hpl hne => rfl⟩

/-- Claim C9, amended, witness at volume 101 on the stored player. -/
theorem set_player_volume_out_of_range_rejected_witness :
    (PlayerManager.set_player_volume mixerRegistry cfgKitchen "kitchen" 101).1
      = cfgKitchen
    ∧ (PlayerManager.set_player_volume mixerRegistry cfgKitchen "kitchen" 101).2.1
      = false :=
  ⟨(set_player_volume_out_of_range_rejected mixerRegistry cfgKitchen "kitchen" 101
      (Or.inr (by decide))).1,
   (set_player_volume_out_of_range_rejected mixerRegistry cfgKitchen "kitchen" 101
      (Or.inr (by decide))).2.1⟩

/-- Claim C10.  When the provider does not resolve, get_player_volume
returns the stored volume (defaulting to 75 when the field is absent)
with no persistence side effect; and when a provider resolves, the
backfill save is skipped whenever the stored record already has a
volume field. -/
theorem get_player_volume_stored_fallback_no_save (reg : ProviderRegistry)
    (cfg : ConfigManager) (name : String) (player : Dict)
    (hp : cfg.get_player name = some player) (hne : player ≠ []) :
    (reg.get_for_player player = none →
      PlayerManager.get_player_volume reg cfg name
        = (cfg, some ((alistLookup player "volume").getD (Val.int 75))))
    ∧ (∀ provider : Provider, reg.get_for_player player = some provider →
        alistHasKey player "volume" = true →
        (PlayerManager.get_player_volume reg cfg name).1 = cfg) := by
  have hie : player.isEmpty = false := by
    cases player with
    | nil => exact absurd rfl hne
    | cons a t => rfl
  constructor
  · intro hgp
    unfold PlayerManager.get_player_volume
    simp only [hp, hie, Bool.false_eq_true, if_false, hgp]
  · intro provider hgp hv
    unfold PlayerManager.get_player_volume
    simp only [hp, hie, Bool.false_eq_true, if_false, hgp, hv, Bool.not_true,
      if_false]

/-- Claim C10, witness: with no resolvable provider the stored volume
75 is returned and the store is untouched. -/
theorem get_player_volume_stored_fallback_no_save_witness :
    PlayerManager.get_player_volume emptyRegistry cfgKitchen "kitchen"
      = (cfgKitchen, some (Val.int 75)) :=
  (get_player_volume_stored_fallback_no_save emptyRegistry cfgKitchen "kitchen"
    kitchenConfig rfl (by decide)).1 rfl

/-- A configuration store with no players. -/
def emptyConfig : ConfigManager := { players := [], saved := [] }

/-- Claim C4, counterexample.  The double-starred extra configuration is
merged after the fixed defaults, so a caller-supplied volume of 40
(accepted by a validator that checks the documented range) is what ends
up persisted: the call succeeds but the persisted volume is 40, not
75. -/
theorem create_player_extra_volume_overrides_default :
    (mixerRegistry.get "squeezelite").isSome = true
    ∧ (mixerFailProvider.validate_config (PlayerManager.create_base_config "kitchen"
        "hw:0,0" "squeezelite" "" "" "" [("volume", Val.int 40)])).1 = true
    ∧ (PlayerManager.create_player mixerRegistry emptyConfig "kitchen" "hw:0,0"
        "squeezelite" "" "" "" [("volume", Val.int 40)]).2.1 = true
    ∧ persistedVolume (PlayerManager.create_player mixerRegistry emptyConfig "kitchen"
        "hw:0,0" "squeezelite" "" "" "" [("volume", Val.int 40)]).1 "kitchen"
        = some (Val.int 40)
    ∧ some (Val.int 40) ≠ some (Val.int 75) :=
  ⟨rfl, rfl, rfl, rfl, by decide⟩

/-- Claim C4, amended.  A valid create with a fresh name, a resolving
provider type and a validated configuration succeeds and persists the
prepared record synchronously (setPlayer plus save) before returning;
the persisted record has volume 75, enabled true and the requested
provider type, provided the caller-supplied extra fields override none
of these defaulted fields and the provider prepare step preserves
them. -/
theorem create_player_defaults_persisted (reg : ProviderRegistry) (cfg : ConfigManager)
    (name device provider_type server_ip server_url mac_address : String)
    (extra_config : Dict) (provider : Provider)
    (hex : cfg.player_exists name = false)
    (hreg : reg.get provider_type = some provider)
    (hval : (provider.validate_config (PlayerManager.create_base_config name device
        provider_type server_ip server_url mac_address extra_config)).1 = true)
    (hv : alistHasKey extra_config "volume" = false)
    (hen : alistHasKey extra_config "enabled" = false)
    (hpr : alistHasKey extra_config "provider" = false)
    (hprep : ∀ k : String, k = "volume" ∨ k = "enabled" ∨ k = "provider" →
        alistLookup (provider.prepare_config (PlayerManager.create_base_config name
            device provider_type server_ip server_url mac_address extra_config)) k
          = alistLookup (PlayerManager.create_base_config name device provider_type
              server_ip server_url mac_address extra_config) k) :
    (PlayerManager.create_player reg cfg name device provider_type server_ip
        server_url mac_address extra_config).2
      = (true, "Player created successfully")
    ∧ (PlayerManager.create_player reg cfg name device provider_type server_ip
        server_url mac_address extra_config).1.player_exists name = true
    ∧ alistLookup (PlayerManager.create_player reg cfg name device provider_type
        server_ip server_url mac_address extra_config).1.saved name
      = some (provider.prepare_config (PlayerManager.create_base_config name device
          provider_type server_ip server_url mac_address extra_config))
    ∧ persistedVolume (PlayerManager.create_player reg cfg name device provider_type
        server_ip server_url mac_address extra_config).1 name = some (Val.int 75)
    ∧ (alistLookup (PlayerManager.create_player reg cfg name device provider_type
        server_ip server_url mac_address extra_config).1.saved name).bind
        (fun d => alistLookup d "enabled") = some (Val.bool true)
    ∧ (alistLookup (PlayerManager.create_player reg cfg name device provider_type
        server_ip server_url mac_address extra_config).1.saved name).bind
        (fun d => alistLookup d "provider") = some (Val.str provider_type)
    ∧ (PlayerManager.create_player reg cfg name device provider_type server_ip
        server_url mac_address extra_config).1.saved
      = (PlayerManager.create_player reg cfg name device provider_type server_ip
        server_url mac_address extra_config).1.players := by
  have hbv : alistLookup (PlayerManager.create_base_config name device provider_type
      server_ip server_url mac_address extra_config) "volume" = some (Val.int 75) := by
    unfold PlayerManager.create_base_config
    rw [alistLookup_merge_of_not_key _ _ _ hv]
    rfl
  have hbe : alistLookup (PlayerManager.create_base_config name device provider_type
      server_ip server_url mac_address extra_config) "enabled" = some (Val.bool true) := by
    unfold PlayerManager.create_base_config
    rw [alistLookup_merge_of_not_key _ _ _ hen]
    rfl
  have hbp : alistLookup (PlayerManager.create_base_config name device provider_type
      server_ip server_url mac_address extra_config) "provider"
      = some (Val.str provider_type) := by
    unfold PlayerManager.create_base_config
    rw [alistLookup_merge_of_not_key _ _ _ hpr]
    rfl
  have hres : PlayerManager.create_player reg cfg name device provider_type server_ip
      server_url mac_address extra_config
      = ((cfg.set_player name (provider.prepare_config
          (PlayerManager.create_base_config name device provider_type server_ip
            server_url mac_address extra_config))).save, true,
         "Player created successfully") := by
    unfold PlayerManager.create_player
    simp only [hex, Bool.false_eq_true, if_false, hreg, hval, Bool.not_true]
  rw [hres]
  refine ⟨rfl, ?_, ?_, ?_, ?_, ?_, rfl⟩
  · unfold ConfigManager.player_exists ConfigManager.save ConfigManager.set_player
    rw [alistHasKey_eq_isSome, alistLookup_set_self]
    rfl
  · unfold ConfigManager.save ConfigManager.set_player
    exact alistLookup_set_self _ _ _
  · unfold persistedVolume ConfigManager.save ConfigManager.set_player
    simp only [alistLookup_set_self, Option.bind]
    exact (hprep "volume" (Or.inl rfl)).trans hbv
  · unfold ConfigManager.save ConfigManager.set_player
    simp only [alistLookup_set_self, Option.bind]
    exact (hprep "enabled" (Or.inr (Or.inl rfl))).trans hbe
  · unfold ConfigManager.save ConfigManager.set_player
    simp only [alistLookup_set_self, Option.bind]
    exact (hprep "provider" (Or.inr (Or.inr rfl))).trans hbp

/-- Claim C4, amended, witness: a plain create (no extra fields) against
the range-checking provider persists volume 75, enabled, the provider
type, and saves synchronously. -/
theorem create_player_defaults_persisted_witness :
    (PlayerManager.create_player mixerRegistry emptyConfig "kitchen" "hw:0,0"
        "squeezelite" "" "" "" []).2 = (true, "Player created successfully")
    ∧ persistedVolume (PlayerManager.create_player mixerRegistry emptyConfig "kitchen"
        "hw:0,0" "squeezelite" "" "" "" []).1 "kitchen" = some (Val.int 75) := by
  have h := create_player_defaults_persisted mixerRegistry emptyConfig "kitchen"
    "hw:0,0" "squeezelite" "" "" "" [] mixerFailProvider rfl rfl rfl rfl rfl rfl
    (fun k hk => rfl)
  exact ⟨h.1, h.2.2.2.1⟩

/-- Claim C5.  Creating a player whose name already exists returns the
duplicate-name failure with the configuration store unchanged (neither
the in-memory nor the saved records are touched, and no save runs); the
source create_player never calls into the process manager at all, which
is why the embedded operation does not even take process state. -/
theorem create_player_duplicate_rejected (reg : ProviderRegistry) (cfg : ConfigManager)
    (name device provider_type server_ip server_url mac_address : String)
    (extra_config : Dict)
    (h : cfg.player_exists name = true) :
    PlayerManager.create_player reg cfg name device provider_type server_ip server_url
      mac_address extra_config
      = (cfg, false, "Player with this name already exists") := by
  unfold PlayerManager.create_player
  simp only [h, if_true]

/-- Claim C5, witness: re-creating kitchen fails and leaves the store
as it was. -/
theorem create_player_duplicate_rejected_witness :
    PlayerManager.create_player mixerRegistry cfgKitchen "kitchen" "hw:1,0"
      "sendspin" "" "" "" [("volume", Val.int 10)]
      = (cfgKitchen, false, "Player with this name already exists") :=
  create_player_duplicate_rejected mixerRegistry cfgKitchen "kitchen" "hw:1,0"
    "sendspin" "" "" "" [("volume", Val.int 10)] rfl

/-- start_player never touches the configuration store: only the
process component of the state can change. -/
theorem start_player_preserves_cfg (reg : ProviderRegistry) (st : PMState)
    (name : String) (spawn : List String → SpawnOutcome) :
    (PlayerManager.start_player reg st name spawn).1.cfg = st.cfg := by
  unfold PlayerManager.start_player
  repeat' split
  all_goals try rfl
  all_goals simp only []
  all_goals split
  all_goals rfl

/-- Claim C6.  When the player is running, the updated configuration
validates, and the automatic restart after persisting fails, the update
still returns ok = true with the restart failure carried only as a
secondary warning in the message, and the new configuration remains
persisted under the (new) name. -/
theorem update_player_restart_failure_reports_ok (reg : ProviderRegistry)
    (st : PMState) (old_name new_name device : String)
    (provider_type : Option String) (server_ip server_url mac_address : String)
    (extra_config : Dict) (stopOutcome : StopOutcome)
    (spawn : List String → SpawnOutcome)
    (hex : st.cfg.player_exists old_name = true)
    (hcol : old_name = new_name ∨ st.cfg.player_exists new_name = false)
    (hrun : st.proc.is_running old_name = true)
    (hval : ∀ provider : Provider,
        reg.get_for_player (PlayerManager.updated_config st.cfg old_name new_name
          device provider_type server_ip server_url mac_address extra_config)
          = some provider →
        (provider.validate_config (PlayerManager.updated_config st.cfg old_name
          new_name device provider_type server_ip server_url mac_address
          extra_config)).1 = true)
    (hfail : (PlayerManager.start_player reg (PlayerManager.update_mid_state reg st
        old_name new_name (PlayerManager.updated_config st.cfg old_name new_name
          device provider_type server_ip server_url mac_address extra_config)
        stopOutcome) new_name spawn).2.1 = false) :
    PlayerManager.update_player reg st old_name new_name device provider_type
        server_ip server_url mac_address extra_config stopOutcome spawn
      = ((PlayerManager.start_player reg (PlayerManager.update_mid_state reg st
            old_name new_name (PlayerManager.updated_config st.cfg old_name new_name
              device provider_type server_ip server_url mac_address extra_config)
            stopOutcome) new_name spawn).1, true,
          "Player updated successfully, but failed to restart: "
            ++ (PlayerManager.start_player reg (PlayerManager.update_mid_state reg st
                old_name new_name (PlayerManager.updated_config st.cfg old_name
                  new_name device provider_type server_ip server_url mac_address
                  extra_config) stopOutcome) new_name spawn).2.2)
    ∧ alistLookup (PlayerManager.start_player reg (PlayerManager.update_mid_state reg
          st old_name new_name (PlayerManager.updated_config st.cfg old_name new_name
            device provider_type server_ip server_url mac_address extra_config)
          stopOutcome) new_name spawn).1.cfg.saved new_name
        = some (PlayerManager.prepared_update reg (PlayerManager.updated_config st.cfg
            old_name new_name device provider_type server_ip server_url mac_address
            extra_config)) := by
  have hc2 : (old_name != new_name && st.cfg.player_exists new_name) = false := by
    rcases hcol with h | h
    · simp [h, bne_self_eq_false]
    · simp [h, Bool.and_false]
  have hcfg1 : (PlayerManager.stop_player st old_name stopOutcome).1.cfg = st.cfg := rfl
  have hvres : (match reg.get_for_player (PlayerManager.updated_config st.cfg old_name
        new_name device provider_type server_ip server_url mac_address extra_config)
      with
      | some provider =>
          provider.validate_config (PlayerManager.updated_config st.cfg old_name
            new_name device provider_type server_ip server_url mac_address
            extra_config)
      | none => (true, "")).1 = true := by
    cases hgp : reg.get_for_player (PlayerManager.updated_config st.cfg old_name
        new_name device provider_type server_ip server_url mac_address extra_config)
      with
    | some provider => exact hval provider hgp
    | none => rfl
  constructor
  · unfold PlayerManager.update_mid_state at hfail
    unfold PlayerManager.update_player PlayerManager.update_mid_state
    cases hb : old_name != new_name with
    | false =>
        rw [hb] at hfail
        simp only [Bool.false_eq_true, if_false, reduceIte] at hfail
        simp only [hex, Bool.not_true, Bool.false_eq_true, if_false, Bool.false_and,
          PlayerManager.get_player_status, hrun, if_true, hcfg1, hvres, reduceIte]
        split
        · rename_i hc
          exact absurd (hfail.symm.trans hc) (by decide)
        · rfl
    | true =>
        rw [hb] at hfail
        simp only [if_true, reduceIte] at hfail
        have hex2 : st.cfg.player_exists new_name = false := by
          rw [hb] at hc2
          simpa using hc2
        simp only [hex, Bool.not_true, Bool.false_eq_true, if_false, Bool.true_and,
          hex2, PlayerManager.get_player_status, hrun, if_true, hcfg1, hvres,
          reduceIte]
        split
        · rename_i hc
          exact absurd (hfail.symm.trans hc) (by decide)
        · rfl
  · rw [start_player_preserves_cfg reg (PlayerManager.update_mid_state reg st old_name
      new_name (PlayerManager.updated_config st.cfg old_name new_name device
        provider_type server_ip server_url mac_address extra_config) stopOutcome)
      new_name spawn]
    exact alistLookup_set_self _ _ _

/-- A stored configuration record for the player room. -/
def roomConfig : Dict :=
  [("name", Val.str "room"), ("device", Val.str "hw:0,0"),
   ("provider", Val.str "squeezelite"), ("volume", Val.int 75)]

/-- A state with the player room configured, saved and running. -/
def stRoom : PMState :=
  { cfg := { players := [("room", roomConfig)], saved := [("room", roomConfig)] },
    proc := { processes := [("room", ⟨3, false⟩)], log_dir := "/app/logs" } }

/-- Claim C6, witness: updating the running player room while the
restart spawn hits a missing binary returns ok = true with the
secondary warning. -/
theorem update_player_restart_failure_reports_ok_witness :
    (PlayerManager.update_player mixerRegistry stRoom "room" "room" "hw:0,0" none
        "" "" "" [] StopOutcome.gracefulExit spawnNotFound).2
      = (true, "Player updated successfully, but failed to restart: Binary \x27squeezelite\x27 not found") := by
  have h := (update_player_restart_failure_reports_ok mixerRegistry stRoom "room"
    "room" "hw:0,0" none "" "" "" [] StopOutcome.gracefulExit spawnNotFound rfl
    (Or.inl rfl) rfl
    (fun provider hgp => by
      have h1 : mixerFailProvider = provider := Option.some.inj hgp
      rw [← h1]
      rfl)
    rfl).1
  rw [h]
  rfl

end MultiSpin
